import Mathlib

/-!
# Verification of the `scaffold` project-materialization pipeline

Shallow embedding of `src/main.rs` (functions `create_project`,
`is_scaffoldable_directory`, `init_git_repo`, `add_dependencies`,
`verify_build`) and `src/config.rs` (`Config::load`), together with
theorems settling the behavioural claims about the pipeline.

External effects (spawned commands, the file system, printed output) are
made explicit: the outcomes of external commands are supplied by an
environment record, the target directory is a record of its existence and
direct children, and every side effect the code performs is recorded in an
effect trace.
-/

namespace Scaffold

/-! ## Data model (from `src/config.rs` and `src/cli.rs`) -/

/-- `Dependency` from src/config.rs: a crate name plus an optional feature
list (empty list when absent). -/
structure Dependency where
  name : String
  features : List String
  deriving Repr, DecidableEq

/-- `TemplateConfig` from src/config.rs. The `sample_config` map and the
`cli` sub-structure hold opaque YAML/template text that no pipeline stage
branches on; they are omitted from the embedding. -/
structure TemplateConfig where
  create_build_rs : Bool
  create_cli_module : Bool
  create_config_module : Bool
  dependencies : List Dependency
  deriving Repr, DecidableEq

/-- `Config` from src/config.rs (the fields the pipeline reads). -/
structure Config where
  default_author : String
  default_license : String
  create_git_repo : Bool
  create_sample_config : Bool
  debug : Bool
  template : TemplateConfig
  deriving Repr, DecidableEq

/-- `TemplateConfig::default()` from src/config.rs. -/
def TemplateConfig.defaultCfg : TemplateConfig :=
  { create_build_rs := true
    create_cli_module := true
    create_config_module := true
    dependencies :=
      [ { name := "clap", features := ["derive"] }
      , { name := "eyre", features := [] }
      , { name := "log", features := [] }
      , { name := "env_logger", features := [] }
      , { name := "serde", features := ["derive"] }
      , { name := "serde_yaml", features := [] }
      , { name := "dirs", features := [] }
      , { name := "colored", features := [] } ] }

/-- `Config::default()` from src/config.rs. -/
def Config.defaultCfg : Config :=
  { default_author := "Your Name <your.email@example.com>"
    default_license := "MIT"
    create_git_repo := true
    create_sample_config := true
    debug := false
    template := TemplateConfig.defaultCfg }

/-- The resolved command line (`Cli` from src/cli.rs); `directory` and
`author` are optional overrides, the `no_*` flags skip stages. Paths are
plain strings. -/
structure Cli where
  project : String
  author : Option String
  directory : Option String
  no_git : Bool
  no_sample_config : Bool
  no_verify : Bool
  no_deps : Bool
  deriving Repr, DecidableEq

/-! ## Name validation (src/main.rs lines 89-103)

`create_project` starts with three checks on the project name. The third
uses Rust `char::is_alphanumeric`, which is true on every Unicode
alphabetic character and on Unicode numeric characters (categories Nd, Nl,
No) — not only on ASCII `[A-Za-z0-9]`. -/

/-- Rust `char::is_alphanumeric`, embedded faithfully on the Latin-1 range
(code points below 0x100): ASCII digits and letters; the Latin-1 letters
ª µ º À-Ö Ø-ö ø-ÿ (Unicode categories Ll/Lu/Lo); and the Latin-1 numeric
characters ² ³ ¹ ¼ ½ ¾ (category No). Code points at or above 0x100 are
outside the embedding and mapped to false; every theorem below applies the
function only to Latin-1 characters. -/
def rustIsAlphanumeric (c : Char) : Bool :=
  let n := c.toNat
  (0x30 ≤ n && n ≤ 0x39) || (0x41 ≤ n && n ≤ 0x5A) || (0x61 ≤ n && n ≤ 0x7A) ||
  n == 0xAA || n == 0xB5 || n == 0xBA ||
  n == 0xB2 || n == 0xB3 || n == 0xB9 ||
  n == 0xBC || n == 0xBD || n == 0xBE ||
  (0xC0 ≤ n && n ≤ 0xD6) || (0xD8 ≤ n && n ≤ 0xF6) || (0xF8 ≤ n && n ≤ 0xFF)

/-- Rust `str::starts_with(char)`: the first character equals `c`
(false on the empty string). -/
def startsWithChar (s : String) (c : Char) : Bool :=
  match s.data with
  | [] => false
  | d :: _ => d == c

/-- The three project-name checks at the top of `create_project`
(src/main.rs lines 89-103), in source order; returns the eyre error
message of the first failing check. -/
def validate_project_name (project : String) : Except String Unit :=
  if project.isEmpty then
    .error "Project name cannot be empty"
  else if startsWithChar project '-' || startsWithChar project '_' then
    .error "Project name cannot start with - or _ (these look like CLI flags)"
  else if !(project.data.all fun c => rustIsAlphanumeric c || c == '_' || c == '-') then
    .error "Project name must contain only alphanumeric characters, hyphens, and underscores"
  else
    .ok ()

/-- A character of the class `[A-Za-z0-9]` of the specified name
pattern. -/
def isAsciiAlnumChar (c : Char) : Bool :=
  (0x30 ≤ c.toNat && c.toNat ≤ 0x39) ||
  (0x41 ≤ c.toNat && c.toNat ≤ 0x5A) ||
  (0x61 ≤ c.toNat && c.toNat ≤ 0x7A)

/-- The name language of the specification, written from its words: a
non-empty string over `[A-Za-z0-9_-]` that does not start with `-` or `_`.
Used only to compare the specified language with the code. -/
def specNamePattern (name : String) : Bool :=
  !name.isEmpty &&
  name.data.all (fun c => isAsciiAlnumChar c || c == '-' || c == '_') &&
  !(startsWithChar name '-' || startsWithChar name '_')

/-! ## Directory safety check (src/main.rs lines 44-82) -/

/-- `ALLOWED_FILES` from `is_scaffoldable_directory` (src/main.rs lines
45-68). -/
def ALLOWED_FILES : List String :=
  [ ".git", ".gitignore", ".gitattributes", ".github", ".editorconfig",
    ".vscode", ".otto.yml", "README", "README.md", "README.txt",
    "LICENSE", "LICENSE.md", "LICENSE.txt", "LICENSE-MIT",
    "LICENSE-APACHE", "CODEOWNERS", "CONTRIBUTING", "CONTRIBUTING.md",
    "CODE_OF_CONDUCT", "CODE_OF_CONDUCT.md", "SECURITY", "SECURITY.md" ]

/-- ASCII-only lower-casing of one character, as Rust
`u8::to_ascii_lowercase` does inside `eq_ignore_ascii_case`. -/
def asciiLower (c : Char) : Char :=
  if 0x41 ≤ c.toNat && c.toNat ≤ 0x5A then Char.ofNat (c.toNat + 0x20) else c

/-- Rust `str::eq_ignore_ascii_case`: equality after ASCII lower-casing. -/
def eqIgnoreAsciiCase (a b : String) : Bool :=
  a.data.map asciiLower == b.data.map asciiLower

/-- `is_scaffoldable_directory` (src/main.rs lines 44-82) on the list of
names of the direct children of the directory (a successful
`fs::read_dir` enumeration): true when every child matches the allow-list
case-insensitively; the source returns `false` at the first non-matching
child, which agrees with `List.all`. -/
def is_scaffoldable_directory (children : List String) : Bool :=
  children.all fun name =>
    ALLOWED_FILES.any fun allowed => eqIgnoreAsciiCase name allowed

/-! ## Effects and environment

Every side effect of the pipeline is recorded in a trace; the outcomes of
the external operations (spawned commands, directory creation, the
template materializer) are supplied by an `Env` record, so the pipeline
functions are total functions of the command line, the configuration, the
environment and the initial state of the target directory. -/

/-- One observable side effect of the pipeline. `println` is a
user-facing `println!` (the colored glyph prefix of the source is
omitted); `createDirAll` is `fs::create_dir_all`; `generateProject` is
the call to `templates::generate_project`; `runCmd` is a spawned external
command with its working directory. -/
inductive Effect where
  | println (s : String)
  | createDirAll (path : String)
  | generateProject (project targetDir author : String) (noDeps : Bool)
  | runCmd (prog : String) (args : List String) (cwd : String)
  deriving Repr, DecidableEq

/-- Outcome of `std::process::Command::output()`: either the spawn itself
failed (`spawnErr`), or the command ran and exited with a status
(`success` = exit code 0) and captured stdout/stderr. -/
inductive CmdResult where
  | spawnErr
  | exited (success : Bool) (stdout stderr : String)
  deriving Repr, DecidableEq

/-- The command ran and exited with status 0. -/
def CmdResult.isSuccess : CmdResult → Bool
  | .exited true _ _ => true
  | _ => false

/-- State of the target directory: whether the path exists and, when it
does, the names of its direct children. -/
structure TargetDir where
  present : Bool
  children : List String
  deriving Repr, DecidableEq

/-- Outcomes of the external operations the pipeline performs, fixed up
front so each run of the embedded pipeline is deterministic. `cargoAdd i`
is the outcome of the i-th `cargo add` invocation. `genResult` and
`genFiles` describe the template materializer, which lives in
`src/templates.rs` (not under src/); modelled from the spec: it writes
the generated file tree (`genFiles`) into the target directory, only
adding files, and any failure is fatal. -/
structure Env where
  createDirOk : Bool
  genResult : Except String Unit
  genFiles : List String
  gitInit : CmdResult
  cargoAdd : Nat → CmdResult
  cargoBuild : CmdResult

/-! ## Pipeline stage functions (src/main.rs lines 149-220) -/

/-- `init_git_repo` (src/main.rs lines 149-172). If a `.git` child
already exists the stage succeeds without spawning anything; otherwise
`git init` is spawned: a spawn failure propagates as an error (the `?` on
`.output()`), a non-zero exit only prints a warning and still returns
`Ok`. On success the repository directory appears as a `.git` child. -/
def init_git_repo (target_dir : String) (env : Env) (st : TargetDir) :
    List Effect × TargetDir × Except String Unit :=
  if st.children.contains ".git" then
    ([Effect.println "Git repository already exists"], st, .ok ())
  else
    let cmdEff := Effect.runCmd "git" ["init"] target_dir
    match env.gitInit with
    | .spawnErr => ([cmdEff], st, .error "Failed to run git init")
    | .exited success _ _ =>
      if success then
        ([cmdEff, Effect.println "Initialized git repository"],
         { st with children := st.children ++ [".git"] }, .ok ())
      else
        ([cmdEff, Effect.println "Git init failed, continuing without git repository"],
         st, .ok ())

/-- The argument list of the `cargo add` invocation for one dependency
(src/main.rs lines 179-185): `add <name>` plus, when the feature list is
non-empty, a single `--features=a,b,...` argument. -/
def cargoAddArgs (dep : Dependency) : List String :=
  ["add", dep.name] ++
    (if dep.features.isEmpty then []
     else ["--features=" ++ String.intercalate "," dep.features])

/-- The `for dep in &config.template.dependencies` loop of
`add_dependencies` (src/main.rs lines 178-195), with `i` the index of the
next invocation in `env.cargoAdd`. Both a spawn failure (the `.context`
on `.output()`) and a non-zero exit stop the loop with an error naming
the dependency; later dependencies are not attempted. -/
def add_dependencies_loop (target_dir : String) (env : Env)
    (deps : List Dependency) (i : Nat) : List Effect × Except String Unit :=
  match deps with
  | [] => ([], .ok ())
  | dep :: rest =>
    let cmdEff := Effect.runCmd "cargo" (cargoAddArgs dep) target_dir
    match env.cargoAdd i with
    | .spawnErr => ([cmdEff], .error ("Failed to add dependency: " ++ dep.name))
    | .exited success _ _ =>
      if success then
        let r := add_dependencies_loop target_dir env rest (i + 1)
        (cmdEff :: r.1, r.2)
      else
        ([cmdEff], .error ("Failed to add dependency: " ++ dep.name))

/-- `add_dependencies` (src/main.rs lines 174-199). -/
def add_dependencies (target_dir : String) (config : Config) (env : Env) :
    List Effect × Except String Unit :=
  let r := add_dependencies_loop target_dir env config.template.dependencies 0
  match r.2 with
  | .ok _ =>
    (Effect.println "Adding dependencies..." :: r.1 ++
       [Effect.println "Dependencies added successfully"], .ok ())
  | .error e => (Effect.println "Adding dependencies..." :: r.1, .error e)

/-- `verify_build` (src/main.rs lines 201-220): spawns `cargo build`; on
a non-zero exit the captured stderr is printed verbatim and the stage
returns an error; a spawn failure is also an error. -/
def verify_build (target_dir : String) (env : Env) :
    List Effect × Except String Unit :=
  let hd := Effect.println "Verifying project builds..."
  let cmdEff := Effect.runCmd "cargo" ["build"] target_dir
  match env.cargoBuild with
  | .spawnErr => ([hd, cmdEff], .error "Failed to run cargo build")
  | .exited success _ stderr =>
    if success then
      ([hd, cmdEff, Effect.println "Project builds successfully"], .ok ())
    else
      ([hd, cmdEff, Effect.println stderr], .error "Generated project failed to build")

/-- `create_project` (src/main.rs lines 84-147): name validation,
directory preparation, materialization, then the three optional stages in
source order, each gated by its flag and aborting the remainder on an
error (the `?` operator). Returns the effect trace, the final state of
the target directory and the result. -/
def create_project (cli : Cli) (config : Config) (env : Env) (st : TargetDir) :
    List Effect × TargetDir × Except String Unit :=
  let project := cli.project
  let target_dir := cli.directory.getD project
  match validate_project_name project with
  | .error e => ([], st, .error e)
  | .ok _ =>
  let tr0 := [Effect.println ("Creating project: " ++ project)]
  -- lines 108-119: directory preparation
  let prep : List Effect × TargetDir × Except String Unit :=
    if st.present then
      if !is_scaffoldable_directory st.children then
        ([], st,
         .error ("Directory " ++ target_dir ++ " already exists and contains non-repo files"))
      else
        ([Effect.println ("Using existing directory: " ++ target_dir)], st, .ok ())
    else
      if env.createDirOk then
        ([Effect.createDirAll target_dir,
          Effect.println ("Created directory: " ++ target_dir)],
         { present := true, children := [] }, .ok ())
      else
        ([Effect.createDirAll target_dir], st, .error "Failed to create project directory")
  match prep with
  | (tr1, st1, .error e) => (tr0 ++ tr1, st1, .error e)
  | (tr1, st1, .ok _) =>
  -- lines 121-127: materialization via templates::generate_project
  let author := cli.author.getD config.default_author
  let genEff := Effect.generateProject project target_dir author cli.no_deps
  match env.genResult with
  | .error e => (tr0 ++ tr1 ++ [genEff], st1, .error e)
  | .ok _ =>
  let st2 : TargetDir := { st1 with children := st1.children ++ env.genFiles }
  -- lines 129-131: version control, gated by the flag and the config
  let gitStep : List Effect × TargetDir × Except String Unit :=
    if !cli.no_git && config.create_git_repo then
      init_git_repo target_dir env st2
    else ([], st2, .ok ())
  match gitStep with
  | (tr2, st3, .error e) => (tr0 ++ tr1 ++ [genEff] ++ tr2, st3, .error e)
  | (tr2, st3, .ok _) =>
  -- lines 133-135: dependency resolution
  let depStep : List Effect × Except String Unit :=
    if !cli.no_deps then add_dependencies target_dir config env else ([], .ok ())
  match depStep with
  | (tr3, .error e) => (tr0 ++ tr1 ++ [genEff] ++ tr2 ++ tr3, st3, .error e)
  | (tr3, .ok _) =>
  -- lines 137-139: build verification
  let buildStep : List Effect × Except String Unit :=
    if !cli.no_verify then verify_build target_dir env else ([], .ok ())
  match buildStep with
  | (tr4, .error e) => (tr0 ++ tr1 ++ [genEff] ++ tr2 ++ tr3 ++ tr4, st3, .error e)
  | (tr4, .ok _) =>
  (tr0 ++ tr1 ++ [genEff] ++ tr2 ++ tr3 ++ tr4 ++
     [Effect.println ("Project " ++ project ++ " created successfully!")],
   st3, .ok ())

/-! ## Configuration loading (src/config.rs lines 119-161) -/

/-- Outcome of `Config::load_from_file` at one path: the file read can
fail, the YAML parse can fail, or a configuration is produced. -/
inductive LoadFileResult where
  | readErr
  | parseErr
  | ok (c : Config)
  deriving Repr, DecidableEq

/-- The file was read and parsed successfully. -/
def LoadFileResult.isOk : LoadFileResult → Bool
  | .ok _ => true
  | _ => false

/-- The file-system facts `Config::load` consults: the outcome of loading
the explicit path (used only when one is given), whether
`dirs::config_dir()` is available, and existence plus load outcome of the
primary (`~/.config/scaffold/scaffold.yml`) and fallback
(`./scaffold.yml`) locations. -/
structure ConfigEnv where
  explicitFile : LoadFileResult
  configDirAvailable : Bool
  primaryExists : Bool
  primaryFile : LoadFileResult
  fallbackExists : Bool
  fallbackFile : LoadFileResult
  deriving Repr, DecidableEq

/-- `Config::load_from_file` (src/config.rs lines 154-161): wraps read
and parse failures in the eyre context messages. -/
def load_from_file (r : LoadFileResult) : Except String Config :=
  match r with
  | .readErr => .error "Failed to read config file"
  | .parseErr => .error "Failed to parse config file"
  | .ok c => .ok c

/-- `Config::load` (src/config.rs lines 119-152). With an explicit path
any `load_from_file` failure is returned (with added context); without
one, a failing primary or fallback file is only warned about and the
chain falls through, ending at `Config::default()`. -/
def Config.load (config_path : Option String) (env : ConfigEnv) : Except String Config :=
  match config_path with
  | some path =>
    match load_from_file env.explicitFile with
    | .error e => .error ("Failed to load config from " ++ path ++ ": " ++ e)
    | .ok c => .ok c
  | none =>
    let afterPrimary : Option Config :=
      if env.configDirAvailable && env.primaryExists then
        match load_from_file env.primaryFile with
        | .ok c => some c
        | .error _ => none   -- log::warn and fall through
      else none
    match afterPrimary with
    | some c => .ok c
    | none =>
      if env.fallbackExists then
        match load_from_file env.fallbackFile with
        | .ok c => .ok c
        | .error _ => .ok Config.defaultCfg   -- log::warn, then defaults
      else .ok Config.defaultCfg

end Scaffold

/-! Quick sanity examples (kept as plain theorems). -/

theorem scaffold_sanity_validate_ok :
    Scaffold.validate_project_name "valid-name_123" = .ok () := rfl

theorem scaffold_sanity_validate_empty :
    Scaffold.validate_project_name "" =
      .error "Project name cannot be empty" := rfl

theorem scaffold_sanity_scaffoldable :
    Scaffold.is_scaffoldable_directory ["readme.MD", ".GIT", "LICENSE"] = true := by decide

theorem scaffold_sanity_occupied :
    Scaffold.is_scaffoldable_directory ["README.md", "notes.txt"] = false := by decide

/-- A concrete all-success run of the whole pipeline reaches `Done`. -/
theorem scaffold_sanity_pipeline :
    (Scaffold.create_project
      { project := "demo-app", author := none, directory := none,
        no_git := false, no_sample_config := false, no_verify := false, no_deps := false }
      Scaffold.Config.defaultCfg
      { createDirOk := true, genResult := .ok (), genFiles := ["Cargo.toml", "src"],
        gitInit := .exited true "" "", cargoAdd := fun _ => .exited true "" "",
        cargoBuild := .exited true "" "" }
      { present := false, children := [] }).2.2 = .ok () := rfl

/-! ## Claim theorems -/

/-- C6: version-control initialization is idempotent — whenever the
target directory already contains a `.git` child, `init_git_repo`
returns success immediately, spawns no external command, and leaves the
directory state unchanged. -/
theorem claim_C6_version_control_idempotent (target_dir : String)
    (env : Scaffold.Env) (st : Scaffold.TargetDir)
    (h : st.children.contains ".git" = true) :
    Scaffold.init_git_repo target_dir env st =
      ([Scaffold.Effect.println "Git repository already exists"], st, .ok ()) := by
  have h' : ".git" ∈ st.children := by simpa using h
  unfold Scaffold.init_git_repo
  simp [h']

/-- Concrete instance of C6: a directory holding `.git`, with an
environment whose `git init` would fail to spawn, still yields a no-op
success. -/
theorem claim_C6_witness :
    Scaffold.init_git_repo "demo"
      { createDirOk := true, genResult := .ok (), genFiles := [],
        gitInit := .spawnErr, cargoAdd := fun _ => .spawnErr,
        cargoBuild := .spawnErr }
      { present := true, children := [".git", "README.md"] } =
      ([Scaffold.Effect.println "Git repository already exists"],
       { present := true, children := [".git", "README.md"] }, .ok ()) :=
  claim_C6_version_control_idempotent _ _ _ (by rfl)

/-- C7: for every invalid project name, `create_project` returns the
validation error with an empty effect trace — no directory creation, no
file write, no external command — and the target directory state is
unchanged. -/
theorem claim_C7_validation_before_mutation (cli : Scaffold.Cli)
    (config : Scaffold.Config) (env : Scaffold.Env) (st : Scaffold.TargetDir)
    (e : String)
    (h : Scaffold.validate_project_name cli.project = .error e) :
    Scaffold.create_project cli config env st = ([], st, .error e) := by
  unfold Scaffold.create_project
  simp [h]

/-- Concrete instance of C7: the empty project name aborts before any
effect, even with every external operation primed to succeed. -/
theorem claim_C7_witness :
    Scaffold.create_project
      { project := "", author := none, directory := none, no_git := false,
        no_sample_config := false, no_verify := false, no_deps := false }
      Scaffold.Config.defaultCfg
      { createDirOk := true, genResult := .ok (), genFiles := ["Cargo.toml"],
        gitInit := .exited true "" "", cargoAdd := fun _ => .exited true "" "",
        cargoBuild := .exited true "" "" }
      { present := false, children := [] } =
      ([], { present := false, children := [] },
       .error "Project name cannot be empty") :=
  claim_C7_validation_before_mutation _ _ _ _ _ (by rfl)

/-- C9: when the spawned `cargo build` runs to an exit status, build
verification succeeds exactly on exit status zero; on a non-zero exit it
returns the fatal error and the captured stderr is printed verbatim. -/
theorem claim_C9_build_verification (target_dir : String) (env : Scaffold.Env)
    (success : Bool) (out err : String)
    (h : env.cargoBuild = .exited success out err) :
    ((Scaffold.verify_build target_dir env).2 = .ok () ↔ success = true) ∧
    (success = false →
      (Scaffold.verify_build target_dir env).2 =
          .error "Generated project failed to build" ∧
      Scaffold.Effect.println err ∈ (Scaffold.verify_build target_dir env).1) := by
  unfold Scaffold.verify_build
  rw [h]
  cases success <;> simp

/-- Concrete instance of C9: a failing build surfaces the captured
stderr and the fatal error. -/
theorem claim_C9_witness :
    (Scaffold.verify_build "demo"
        { createDirOk := true, genResult := .ok (), genFiles := [],
          gitInit := .spawnErr, cargoAdd := fun _ => .spawnErr,
          cargoBuild := .exited false "" "error: expected expression" }).2 =
      .error "Generated project failed to build" ∧
    Scaffold.Effect.println "error: expected expression" ∈
      (Scaffold.verify_build "demo"
        { createDirOk := true, genResult := .ok (), genFiles := [],
          gitInit := .spawnErr, cargoAdd := fun _ => .spawnErr,
          cargoBuild := .exited false "" "error: expected expression" }).1 :=
  (claim_C9_build_verification "demo" _ false "" "error: expected expression" rfl).2 rfl

/-- C10: configuration loading is asymmetric — with an explicit config
path, any read or parse failure of that file is returned as an error
(defaults are never substituted), while without an explicit path
`Config::load` always returns a configuration, whatever the state of the
default-location files. -/
theorem claim_C10_config_load_asymmetry (env : Scaffold.ConfigEnv) :
    (∀ path : String, env.explicitFile.isOk = false →
       ∃ e, Scaffold.Config.load (some path) env = .error e) ∧
    (∃ c, Scaffold.Config.load none env = .ok c) := by
  constructor
  · intro path hfail
    unfold Scaffold.Config.load
    cases hE : env.explicitFile <;>
      simp [Scaffold.load_from_file, Scaffold.LoadFileResult.isOk, hE] at hfail ⊢
  · unfold Scaffold.Config.load
    cases hA : env.configDirAvailable <;> cases hP : env.primaryExists <;>
      cases hPF : env.primaryFile <;> cases hF : env.fallbackExists <;>
        cases hFF : env.fallbackFile <;>
          simp [Scaffold.load_from_file, hA, hP, hPF, hF, hFF]

/-- Concrete instance of C10: an unreadable explicit file is a fatal
error, while the same unreadable file at the primary default location
(with a malformed fallback file) still loads successfully. -/
theorem claim_C10_witness :
    (∃ e, Scaffold.Config.load (some "custom.yml")
        { explicitFile := .readErr, configDirAvailable := true,
          primaryExists := true, primaryFile := .readErr,
          fallbackExists := true, fallbackFile := .parseErr } = .error e) ∧
    (∃ c, Scaffold.Config.load none
        { explicitFile := .readErr, configDirAvailable := true,
          primaryExists := true, primaryFile := .readErr,
          fallbackExists := true, fallbackFile := .parseErr } = .ok c) :=
  ⟨(claim_C10_config_load_asymmetry _).1 "custom.yml" (by rfl),
   (claim_C10_config_load_asymmetry _).2⟩

/-- On the ASCII range, Rust `char::is_alphanumeric` agrees with the
class `[A-Za-z0-9]`. -/
theorem rust_alnum_eq_ascii (c : Char) (h : c.toNat ≤ 0x7F) :
    Scaffold.rustIsAlphanumeric c = Scaffold.isAsciiAlnumChar c := by
  rw [Bool.eq_iff_iff]
  simp only [Scaffold.rustIsAlphanumeric, Scaffold.isAsciiAlnumChar,
    Bool.or_eq_true, Bool.and_eq_true, decide_eq_true_eq, beq_iff_eq]
  omega

/-- An `[A-Za-z0-9]` character satisfies Rust `char::is_alphanumeric`. -/
theorem rust_alnum_of_ascii (c : Char) (h : Scaffold.isAsciiAlnumChar c = true) :
    Scaffold.rustIsAlphanumeric c = true := by
  simp only [Scaffold.isAsciiAlnumChar, Bool.or_eq_true, Bool.and_eq_true,
    decide_eq_true_eq] at h
  simp only [Scaffold.rustIsAlphanumeric, Bool.or_eq_true, Bool.and_eq_true,
    decide_eq_true_eq, beq_iff_eq]
  omega

/-- C2: the ASCII half of the claimed characterization holds — every name
matching `[A-Za-z0-9_-]+` not starting with `-`/`_` passes validation, and
on all-ASCII non-empty names validation fails exactly per the ordered
rules with the rule-identifying message — but the characterization itself
is false: the non-ASCII name `é` is non-empty, matches no rule of the
claimed pattern, and is accepted, because the code tests Rust
`char::is_alphanumeric` (any Unicode alphanumeric) rather than
`[A-Za-z0-9]`. -/
theorem claim_C2_name_validation :
    (∀ name, Scaffold.specNamePattern name = true →
        Scaffold.validate_project_name name = .ok ()) ∧
    (∀ name, name.isEmpty = false →
        name.data.all (fun c => c.toNat ≤ 0x7F) = true →
        Scaffold.validate_project_name name =
          (if Scaffold.startsWithChar name '-' || Scaffold.startsWithChar name '_' then
             .error "Project name cannot start with - or _ (these look like CLI flags)"
           else if !(name.data.all fun c =>
                       Scaffold.isAsciiAlnumChar c || c == '_' || c == '-') then
             .error "Project name must contain only alphanumeric characters, hyphens, and underscores"
           else .ok ())) ∧
    (Scaffold.specNamePattern "é" = false ∧ ("é" : String).isEmpty = false ∧
       Scaffold.validate_project_name "é" = .ok ()) := by
  refine ⟨?_, ?_, by decide, by rfl, by rfl⟩
  · intro name h
    simp only [Scaffold.specNamePattern, Bool.and_eq_true, Bool.not_eq_true',
      List.all_eq_true, Bool.or_eq_true] at h
    obtain ⟨⟨h1, h2⟩, h3⟩ := h
    unfold Scaffold.validate_project_name
    rw [h1, h3]
    have hall : (name.data.all fun c =>
        Scaffold.rustIsAlphanumeric c || c == '_' || c == '-') = true := by
      simp only [List.all_eq_true, Bool.or_eq_true]
      intro c hc
      rcases h2 c hc with (ha | hb) | hb
      · exact Or.inl (Or.inl (rust_alnum_of_ascii c ha))
      · exact Or.inr hb
      · exact Or.inl (Or.inr hb)
    rw [hall]
    simp
  · intro name h1 h2
    simp only [List.all_eq_true, decide_eq_true_eq] at h2
    have hall : (name.data.all fun c =>
          Scaffold.rustIsAlphanumeric c || c == '_' || c == '-') =
        (name.data.all fun c =>
          Scaffold.isAsciiAlnumChar c || c == '_' || c == '-') := by
      rw [Bool.eq_iff_iff]
      simp only [List.all_eq_true, Bool.or_eq_true]
      constructor <;> intro hx c hc <;>
        have hr := rust_alnum_eq_ascii c (h2 c hc) <;>
        rcases hx c hc with (ha | hb) | hb
      · exact Or.inl (Or.inl (hr.symm.trans ha))
      · exact Or.inl (Or.inr hb)
      · exact Or.inr hb
      · exact Or.inl (Or.inl (hr.trans ha))
      · exact Or.inl (Or.inr hb)
      · exact Or.inr hb
    unfold Scaffold.validate_project_name
    rw [h1, hall]
    simp

/-- Concrete instances of C2: a pattern-matching name is accepted, and a
non-empty ASCII name with a disallowed character is rejected with the
third rule's message. -/
theorem claim_C2_witness :
    Scaffold.validate_project_name "demo-app" = .ok () ∧
    Scaffold.validate_project_name "bad@name" =
      .error "Project name must contain only alphanumeric characters, hyphens, and underscores" := by
  refine ⟨claim_C2_name_validation.1 "demo-app" (by decide), ?_⟩
  have h := claim_C2_name_validation.2.1 "bad@name" (by rfl) (by decide)
  simpa using h

/-- The `cargo add` loop stops at the first failing invocation: with the
invocations before index `k` succeeding and invocation `k` failing (spawn
failure or non-zero exit), the loop spawns exactly the commands for the
first `k + 1` dependencies in declaration order and returns the error
naming dependency `k`. -/
theorem add_loop_first_failure (target_dir : String) (env : Scaffold.Env) :
    ∀ (deps : List Scaffold.Dependency) (i k : Nat) (hk : k < deps.length),
      (env.cargoAdd (i + k)).isSuccess = false →
      (∀ j, j < k → (env.cargoAdd (i + j)).isSuccess = true) →
      Scaffold.add_dependencies_loop target_dir env deps i =
        ((deps.take (k + 1)).map
           (fun dep =>
             Scaffold.Effect.runCmd "cargo" (Scaffold.cargoAddArgs dep) target_dir),
         .error ("Failed to add dependency: " ++ (deps.get ⟨k, hk⟩).name)) := by
  intro deps
  induction deps with
  | nil => intro i k hk; exact absurd hk (by simp)
  | cons dep rest ih =>
    intro i k hk hfail hbefore
    cases k with
    | zero =>
      rw [Nat.add_zero] at hfail
      unfold Scaffold.add_dependencies_loop
      cases hc : env.cargoAdd i with
      | spawnErr => simp [hc]
      | exited success out err =>
        cases success
        · simp [hc]
        · rw [hc] at hfail; exact absurd hfail (by simp [Scaffold.CmdResult.isSuccess])
    | succ n =>
      have h0 := hbefore 0 (Nat.succ_pos n)
      rw [Nat.add_zero] at h0
      have hfail' : (env.cargoAdd (i + 1 + n)).isSuccess = false := by
        have : i + 1 + n = i + (n + 1) := by omega
        rw [this]; exact hfail
      have hbefore' : ∀ j, j < n → (env.cargoAdd (i + 1 + j)).isSuccess = true := by
        intro j hj
        have : i + 1 + j = i + (j + 1) := by omega
        rw [this]; exact hbefore (j + 1) (by omega)
      have ih' := ih (i + 1) n (by simpa using Nat.lt_of_succ_lt_succ hk) hfail' hbefore'
      unfold Scaffold.add_dependencies_loop
      cases hc : env.cargoAdd i with
      | spawnErr =>
        rw [hc] at h0; exact absurd h0 (by simp [Scaffold.CmdResult.isSuccess])
      | exited success out err =>
        cases success
        · rw [hc] at h0; exact absurd h0 (by simp [Scaffold.CmdResult.isSuccess])
        · simp [hc, ih']

/-- C3: dependency resolution iterates the configured list in declaration
order and stops at the first dependency whose `cargo add` fails (spawn
failure or non-zero exit): exactly the commands for dependencies `0..k`
are spawned (nothing afterwards is attempted, nothing is removed), and
the stage returns the fatal error naming dependency `k`. -/
theorem claim_C3_dependency_first_failure (target_dir : String)
    (config : Scaffold.Config) (env : Scaffold.Env) (k : Nat)
    (hk : k < config.template.dependencies.length)
    (hfail : (env.cargoAdd k).isSuccess = false)
    (hbefore : ∀ j, j < k → (env.cargoAdd j).isSuccess = true) :
    Scaffold.add_dependencies target_dir config env =
      (Scaffold.Effect.println "Adding dependencies..." ::
         (config.template.dependencies.take (k + 1)).map
           (fun dep =>
             Scaffold.Effect.runCmd "cargo" (Scaffold.cargoAddArgs dep) target_dir),
       .error ("Failed to add dependency: " ++
         (config.template.dependencies.get ⟨k, hk⟩).name)) := by
  have h := add_loop_first_failure target_dir env config.template.dependencies 0 k hk
    (by simpa using hfail) (by intro j hj; simpa using hbefore j hj)
  simp [Scaffold.add_dependencies, h]

/-- The three-dependency list A, B, C of the specification's example. -/
def depsABCConfig : Scaffold.Config :=
  { Scaffold.Config.defaultCfg with
    template :=
      { Scaffold.TemplateConfig.defaultCfg with
        dependencies :=
          [ { name := "A", features := [] }
          , { name := "B", features := [] }
          , { name := "C", features := [] } ] } }

/-- An environment in which the first `cargo add` succeeds and every
later one exits non-zero. -/
def depsABCEnv : Scaffold.Env :=
  { createDirOk := true, genResult := .ok (), genFiles := [],
    gitInit := .exited true "" "",
    cargoAdd := fun i => if i = 0 then .exited true "" "" else .exited false "" "",
    cargoBuild := .exited true "" "" }

/-- Concrete instance of C3 (the specification's example): with
dependencies A, B, C and B failing, A and B are attempted, C is not, and
the error names B. -/
theorem claim_C3_witness :
    Scaffold.add_dependencies "demo" depsABCConfig depsABCEnv =
      (Scaffold.Effect.println "Adding dependencies..." ::
         [ Scaffold.Effect.runCmd "cargo" ["add", "A"] "demo"
         , Scaffold.Effect.runCmd "cargo" ["add", "B"] "demo" ],
       .error "Failed to add dependency: B") := by
  have h := claim_C3_dependency_first_failure "demo" depsABCConfig depsABCEnv 1
    (by decide) (by rfl)
    (by intro j hj; have hj0 : j = 0 := by omega
        rw [hj0]; rfl)
  simpa [depsABCConfig, Scaffold.cargoAddArgs] using h

/-- When the version-control init command spawns and runs to an exit
status — zero or not — `init_git_repo` returns success; on a non-zero
exit it emits only the warning message and leaves the directory state
unchanged. -/
theorem init_git_repo_exited (target_dir : String) (env : Scaffold.Env)
    (st : Scaffold.TargetDir) (success : Bool) (out err : String)
    (h : env.gitInit = .exited success out err) :
    (Scaffold.init_git_repo target_dir env st).2.2 = .ok () ∧
    (success = false → ".git" ∈ st.children ∨
      (Scaffold.init_git_repo target_dir env st).1 =
        [Scaffold.Effect.runCmd "git" ["init"] target_dir,
         Scaffold.Effect.println "Git init failed, continuing without git repository"] ∧
      (Scaffold.init_git_repo target_dir env st).2.1 = st) := by
  unfold Scaffold.init_git_repo
  by_cases hg : ".git" ∈ st.children
  · simp [hg]
  · rw [h]
    cases success <;> simp [hg]

/-- The dependency stage always starts by announcing itself, whatever the
outcomes of the `cargo add` invocations. -/
theorem add_dependencies_trace_head (target_dir : String)
    (config : Scaffold.Config) (env : Scaffold.Env) :
    ∃ t, (Scaffold.add_dependencies target_dir config env).1 =
      Scaffold.Effect.println "Adding dependencies..." :: t := by
  unfold Scaffold.add_dependencies
  cases h : (Scaffold.add_dependencies_loop target_dir env
      config.template.dependencies 0).2 <;> simp [h]

/-- An environment whose `git init` fails to spawn while every other
external operation succeeds. -/
def gitSpawnFailEnv : Scaffold.Env :=
  { createDirOk := true, genResult := .ok (), genFiles := ["Cargo.toml", "src"],
    gitInit := .spawnErr, cargoAdd := fun _ => .exited true "" "",
    cargoBuild := .exited true "" "" }

/-- Counterexample to C1 as stated: a spawn failure of the
version-control init command is NOT downgraded to a warning — it aborts
the whole pipeline (the `?` on `.output()` in `init_git_repo`), even with
every later stage primed to succeed. -/
theorem claim_C1_counterexample :
    (Scaffold.create_project
      { project := "demo-app", author := none, directory := none,
        no_git := false, no_sample_config := false, no_verify := false,
        no_deps := false }
      Scaffold.Config.defaultCfg gitSpawnFailEnv
      { present := false, children := [] }).2.2 =
      .error "Failed to run git init" := rfl

/-- C1 (amended): when the version-control init command spawns
successfully, every exit status yields at most a warning — the stage
returns success, a non-zero exit only prints the warning line and leaves
the directory unchanged — and the pipeline continues to the dependency
stage; only a spawn failure of the init command aborts the pipeline. -/
theorem claim_C1_git_failure_warns (env : Scaffold.Env)
    (success : Bool) (out err : String)
    (h : env.gitInit = .exited success out err) :
    (∀ (target_dir : String) (st : Scaffold.TargetDir),
      (Scaffold.init_git_repo target_dir env st).2.2 = .ok () ∧
      (success = false → ".git" ∈ st.children ∨
        (Scaffold.init_git_repo target_dir env st).1 =
          [Scaffold.Effect.runCmd "git" ["init"] target_dir,
           Scaffold.Effect.println "Git init failed, continuing without git repository"] ∧
        (Scaffold.init_git_repo target_dir env st).2.1 = st)) ∧
    (∀ (cli : Scaffold.Cli) (config : Scaffold.Config) (st : Scaffold.TargetDir),
      Scaffold.validate_project_name cli.project = .ok () →
      st.present = true →
      Scaffold.is_scaffoldable_directory st.children = true →
      env.genResult = .ok () →
      cli.no_deps = false →
      Scaffold.Effect.println "Adding dependencies..." ∈
        (Scaffold.create_project cli config env st).1) := by
  refine ⟨fun target_dir st => init_git_repo_exited target_dir env st success out err h, ?_⟩
  intro cli config st hvalid hpres hscaff hgen hnodeps
  obtain ⟨t, ht⟩ := add_dependencies_trace_head (cli.directory.getD cli.project) config env
  have hgitok := (init_git_repo_exited (cli.directory.getD cli.project) env
      { present := true, children := st.children ++ env.genFiles } success out err h).1
  unfold Scaffold.create_project
  simp only [hvalid, hgen, hpres, hscaff, hnodeps, Bool.not_true, Bool.not_false,
    Bool.false_eq_true, if_true, if_false, ite_true, ite_false]
  by_cases hgate : (!cli.no_git && config.create_git_repo) = true
  · rw [if_pos hgate]
    repeat' split
    all_goals simp_all [List.mem_append]
  · rw [if_neg hgate]
    repeat' split
    all_goals simp_all [List.mem_append]

/-- An environment whose `git init` spawns but exits non-zero, with every
other external operation succeeding. -/
def gitExitFailEnv : Scaffold.Env :=
  { createDirOk := true, genResult := .ok (), genFiles := ["Cargo.toml", "src"],
    gitInit := .exited false "" "fatal: cannot init",
    cargoAdd := fun _ => .exited true "" "",
    cargoBuild := .exited true "" "" }

/-- Concrete instance of C1 (amended): a non-zero `git init` exit leaves
the stage successful, and a full pipeline over a scaffoldable directory
still reaches the dependency stage. -/
theorem claim_C1_witness :
    (Scaffold.init_git_repo "demo-app" gitExitFailEnv
        { present := true, children := ["Cargo.toml"] }).2.2 = .ok () ∧
    Scaffold.Effect.println "Adding dependencies..." ∈
      (Scaffold.create_project
        { project := "demo-app", author := none, directory := none,
          no_git := false, no_sample_config := false, no_verify := false,
          no_deps := false }
        Scaffold.Config.defaultCfg gitExitFailEnv
        { present := true, children := ["README.md"] }).1 := by
  have H := claim_C1_git_failure_warns gitExitFailEnv false "" "fatal: cannot init" rfl
  exact ⟨(H.1 "demo-app" { present := true, children := ["Cargo.toml"] }).1,
    H.2 { project := "demo-app", author := none, directory := none,
          no_git := false, no_sample_config := false, no_verify := false,
          no_deps := false }
      Scaffold.Config.defaultCfg { present := true, children := ["README.md"] }
      (by rfl) rfl (by decide) rfl rfl⟩

/-- The version-control stage never creates directories through the file
system API. -/
theorem init_git_repo_no_createDir (td : String) (env : Scaffold.Env)
    (st : Scaffold.TargetDir) (p : String) :
    Scaffold.Effect.createDirAll p ∉ (Scaffold.init_git_repo td env st).1 := by
  unfold Scaffold.init_git_repo
  by_cases hg : ".git" ∈ st.children
  · simp [hg]
  · cases hc : env.gitInit with
    | spawnErr => simp [hg, hc]
    | exited success out err => cases success <;> simp [hg, hc]

/-- The `cargo add` loop emits only spawned-command effects. -/
theorem add_loop_no_createDir (td : String) (env : Scaffold.Env) :
    ∀ (deps : List Scaffold.Dependency) (i : Nat) (p : String),
      Scaffold.Effect.createDirAll p ∉
        (Scaffold.add_dependencies_loop td env deps i).1 := by
  intro deps
  induction deps with
  | nil => intro i p; simp [Scaffold.add_dependencies_loop]
  | cons dep rest ih =>
    intro i p
    unfold Scaffold.add_dependencies_loop
    cases hc : env.cargoAdd i with
    | spawnErr => simp [hc]
    | exited success out err =>
      cases success
      · simp [hc]
      · simpa [hc] using ih (i + 1) p

/-- The dependency stage never creates directories through the file
system API. -/
theorem add_dependencies_no_createDir (td : String) (config : Scaffold.Config)
    (env : Scaffold.Env) (p : String) :
    Scaffold.Effect.createDirAll p ∉ (Scaffold.add_dependencies td config env).1 := by
  unfold Scaffold.add_dependencies
  cases h : (Scaffold.add_dependencies_loop td env config.template.dependencies 0).2 <;>
    simpa [h] using add_loop_no_createDir td env config.template.dependencies 0 p

/-- The build-verification stage never creates directories through the
file system API. -/
theorem verify_build_no_createDir (td : String) (env : Scaffold.Env) (p : String) :
    Scaffold.Effect.createDirAll p ∉ (Scaffold.verify_build td env).1 := by
  unfold Scaffold.verify_build
  cases hc : env.cargoBuild with
  | spawnErr => simp
  | exited success out err => cases success <;> simp

/-- C4: an existing target directory is rejected as occupied exactly when
some direct child fails the case-insensitive allow-list; in that case
`create_project` stops with the directory-occupied error after only the
opening announcement — no directory creation, no file write, no spawned
command, state unchanged — while an accepted (empty or allow-listed-only)
directory is used as is: the pipeline proceeds to materialization and
never creates the directory. -/
theorem claim_C4_directory_safety (cli : Scaffold.Cli) (config : Scaffold.Config)
    (env : Scaffold.Env) (st : Scaffold.TargetDir)
    (hvalid : Scaffold.validate_project_name cli.project = .ok ())
    (hpres : st.present = true) :
    (Scaffold.is_scaffoldable_directory st.children = false ↔
       ∃ name ∈ st.children,
         (Scaffold.ALLOWED_FILES.any fun a => Scaffold.eqIgnoreAsciiCase name a) = false) ∧
    (Scaffold.is_scaffoldable_directory st.children = false →
       Scaffold.create_project cli config env st =
         ([Scaffold.Effect.println ("Creating project: " ++ cli.project)], st,
          .error ("Directory " ++ cli.directory.getD cli.project ++
            " already exists and contains non-repo files"))) ∧
    (Scaffold.is_scaffoldable_directory st.children = true →
       Scaffold.Effect.generateProject cli.project (cli.directory.getD cli.project)
           (cli.author.getD config.default_author) cli.no_deps ∈
         (Scaffold.create_project cli config env st).1 ∧
       ∀ p, Scaffold.Effect.createDirAll p ∉ (Scaffold.create_project cli config env st).1) := by
  refine ⟨?_, ?_, ?_⟩
  · simp [Scaffold.is_scaffoldable_directory, List.all_eq_false]
  · intro hocc
    unfold Scaffold.create_project
    simp [hvalid, hpres, hocc]
  · intro hscaff
    constructor
    · unfold Scaffold.create_project
      simp only [hvalid, hpres, hscaff, Bool.not_true, Bool.not_false,
        Bool.false_eq_true, if_true, if_false, ite_true, ite_false]
      by_cases hgate : (!cli.no_git && config.create_git_repo) = true
      · rw [if_pos hgate]
        repeat' split
        all_goals simp_all [List.mem_append]
      · rw [if_neg hgate]
        repeat' split
        all_goals simp_all [List.mem_append]
    · intro p
      have hgitNC := init_git_repo_no_createDir (cli.directory.getD cli.project) env
        { present := true, children := st.children ++ env.genFiles } p
      have hdepNC := add_dependencies_no_createDir (cli.directory.getD cli.project)
        config env p
      have hverNC := verify_build_no_createDir (cli.directory.getD cli.project) env p
      cases hnd : cli.no_deps <;> cases hnv : cli.no_verify <;>
        (unfold Scaffold.create_project
         simp only [hvalid, hpres, hscaff, hnd, hnv, Bool.not_true, Bool.not_false,
           Bool.false_eq_true, eq_self_iff_true, if_true, if_false, ite_true, ite_false]
         by_cases hgate : (!cli.no_git && config.create_git_repo) = true
         · rw [if_pos hgate]
           repeat' split
           all_goals simp_all [List.mem_append]
         · rw [if_neg hgate]
           repeat' split
           all_goals simp_all [List.mem_append])

/-- Concrete instance of C4: a pre-existing directory holding the
unrecognized file `notes.txt` is rejected with the directory-occupied
error after only the opening announcement, with no writes. -/
theorem claim_C4_witness :
    Scaffold.create_project
      { project := "demo-app", author := none, directory := none,
        no_git := false, no_sample_config := false, no_verify := false,
        no_deps := false }
      Scaffold.Config.defaultCfg
      { createDirOk := true, genResult := .ok (), genFiles := ["Cargo.toml"],
        gitInit := .exited true "" "", cargoAdd := fun _ => .exited true "" "",
        cargoBuild := .exited true "" "" }
      { present := true, children := ["README.md", "notes.txt"] } =
      ([Scaffold.Effect.println "Creating project: demo-app"],
       { present := true, children := ["README.md", "notes.txt"] },
       .error "Directory demo-app already exists and contains non-repo files") :=
  (claim_C4_directory_safety _ _ _ _ (by rfl) rfl).2.1 (by decide)

/-- The version-control stage only ever adds a child (the `.git`
repository on a successful init); it never removes one. -/
theorem init_git_repo_children_extend (td : String) (env : Scaffold.Env)
    (st : Scaffold.TargetDir) :
    ∃ added, (Scaffold.init_git_repo td env st).2.1.children = st.children ++ added := by
  unfold Scaffold.init_git_repo
  by_cases hg : ".git" ∈ st.children
  · exact ⟨[], by simp [hg]⟩
  · cases hc : env.gitInit with
    | spawnErr => exact ⟨[], by simp [hg, hc]⟩
    | exited success out err =>
      cases success
      · exact ⟨[], by simp [hg, hc]⟩
      · exact ⟨[".git"], by simp [hg, hc]⟩

/-- C5: once the safety check has accepted an existing target directory,
no pipeline stage deletes or empties it — whether the pipeline completes
or aborts, the final directory contents are the accepted contents plus
some added files, so every pre-existing child is still present.
The template materializer (src/templates.rs, not under src/) is modelled
from the spec as add-only. -/
theorem claim_C5_no_deletion (cli : Scaffold.Cli) (config : Scaffold.Config)
    (env : Scaffold.Env) (st : Scaffold.TargetDir)
    (hpres : st.present = true)
    (hscaff : Scaffold.is_scaffoldable_directory st.children = true) :
    (∃ added, (Scaffold.create_project cli config env st).2.1.children =
        st.children ++ added) ∧
    ∀ f ∈ st.children, f ∈ (Scaffold.create_project cli config env st).2.1.children := by
  have hmain : ∃ added, (Scaffold.create_project cli config env st).2.1.children =
      st.children ++ added := by
    cases hv : Scaffold.validate_project_name cli.project with
    | error e =>
      refine ⟨[], ?_⟩
      unfold Scaffold.create_project
      simp [hv]
    | ok u =>
      obtain ⟨ga, hga⟩ := init_git_repo_children_extend (cli.directory.getD cli.project)
        env { present := true, children := st.children ++ env.genFiles }
      unfold Scaffold.create_project
      simp only [hv, hpres, hscaff, Bool.not_true, Bool.not_false, Bool.false_eq_true,
        if_true, if_false, ite_true, ite_false]
      by_cases hgate : (!cli.no_git && config.create_git_repo) = true
      · rw [if_pos hgate]
        repeat' split
        all_goals first
          | (refine ⟨[], ?_⟩; simp_all; done)
          | (refine ⟨env.genFiles, ?_⟩; simp_all; done)
          | (refine ⟨env.genFiles ++ ga, ?_⟩; simp_all [List.append_assoc]; done)
      · rw [if_neg hgate]
        repeat' split
        all_goals first
          | (refine ⟨[], ?_⟩; simp_all; done)
          | (refine ⟨env.genFiles, ?_⟩; simp_all; done)
          | (refine ⟨env.genFiles, ?_⟩; simp_all; casesm* _ ∧ _; subst_vars;
             first
               | rfl
               | simp_all
             done)
  refine ⟨hmain, ?_⟩
  obtain ⟨added, ha⟩ := hmain
  rw [ha]
  intro f hf
  exact List.mem_append_left _ hf

/-- Concrete instance of C5: a full successful pipeline over a directory
holding `README.md`, `LICENSE` and `.git` leaves all three present. -/
theorem claim_C5_witness :
    "README.md" ∈ (Scaffold.create_project
      { project := "demo-app", author := none, directory := none,
        no_git := false, no_sample_config := false, no_verify := false,
        no_deps := false }
      Scaffold.Config.defaultCfg
      { createDirOk := true, genResult := .ok (), genFiles := ["Cargo.toml", "src"],
        gitInit := .exited true "" "", cargoAdd := fun _ => .exited true "" "",
        cargoBuild := .exited true "" "" }
      { present := true, children := ["README.md", "LICENSE", ".git"] }).2.1.children ∧
    "LICENSE" ∈ (Scaffold.create_project
      { project := "demo-app", author := none, directory := none,
        no_git := false, no_sample_config := false, no_verify := false,
        no_deps := false }
      Scaffold.Config.defaultCfg
      { createDirOk := true, genResult := .ok (), genFiles := ["Cargo.toml", "src"],
        gitInit := .exited true "" "", cargoAdd := fun _ => .exited true "" "",
        cargoBuild := .exited true "" "" }
      { present := true, children := ["README.md", "LICENSE", ".git"] }).2.1.children ∧
    ".git" ∈ (Scaffold.create_project
      { project := "demo-app", author := none, directory := none,
        no_git := false, no_sample_config := false, no_verify := false,
        no_deps := false }
      Scaffold.Config.defaultCfg
      { createDirOk := true, genResult := .ok (), genFiles := ["Cargo.toml", "src"],
        gitInit := .exited true "" "", cargoAdd := fun _ => .exited true "" "",
        cargoBuild := .exited true "" "" }
      { present := true, children := ["README.md", "LICENSE", ".git"] }).2.1.children :=
  ⟨(claim_C5_no_deletion _ _ _ _ rfl (by decide)).2 "README.md" (by decide),
   (claim_C5_no_deletion _ _ _ _ rfl (by decide)).2 "LICENSE" (by decide),
   (claim_C5_no_deletion _ _ _ _ rfl (by decide)).2 ".git" (by decide)⟩

/-- When every `cargo add` invocation succeeds, the loop spawns one
command per dependency, in declaration order, and succeeds. -/
theorem add_loop_all_success (td : String) (env : Scaffold.Env) :
    ∀ (deps : List Scaffold.Dependency) (i : Nat),
      (∀ j, j < deps.length → (env.cargoAdd (i + j)).isSuccess = true) →
      Scaffold.add_dependencies_loop td env deps i =
        (deps.map (fun dep =>
          Scaffold.Effect.runCmd "cargo" (Scaffold.cargoAddArgs dep) td), .ok ()) := by
  intro deps
  induction deps with
  | nil => intro i h; simp [Scaffold.add_dependencies_loop]
  | cons dep rest ih =>
    intro i h
    have h0 := h 0 (Nat.succ_pos _)
    rw [Nat.add_zero] at h0
    unfold Scaffold.add_dependencies_loop
    cases hc : env.cargoAdd i with
    | spawnErr => rw [hc] at h0; exact absurd h0 (by simp [Scaffold.CmdResult.isSuccess])
    | exited success out err =>
      cases success
      · rw [hc] at h0; exact absurd h0 (by simp [Scaffold.CmdResult.isSuccess])
      · have ih' := ih (i + 1) (by
          intro j hj
          have : i + 1 + j = i + (j + 1) := by omega
          rw [this]; exact h (j + 1) (by simp only [List.length_cons]; omega))
        simp [hc, ih']

/-- The version-control stage always announces itself or spawns. -/
theorem init_git_repo_trace_ne_nil (td : String) (env : Scaffold.Env)
    (st : Scaffold.TargetDir) : (Scaffold.init_git_repo td env st).1 ≠ [] := by
  unfold Scaffold.init_git_repo
  by_cases hg : ".git" ∈ st.children
  · simp [hg]
  · cases hc : env.gitInit with
    | spawnErr => simp [hg, hc]
    | exited success out err => cases success <;> simp [hg, hc]

/-- The dependency stage always announces itself. -/
theorem add_dependencies_trace_ne_nil (td : String) (config : Scaffold.Config)
    (env : Scaffold.Env) : (Scaffold.add_dependencies td config env).1 ≠ [] := by
  obtain ⟨t, ht⟩ := add_dependencies_trace_head td config env
  simp [ht]

/-- The build-verification stage always announces itself. -/
theorem verify_build_trace_ne_nil (td : String) (env : Scaffold.Env) :
    (Scaffold.verify_build td env).1 ≠ [] := by
  unfold Scaffold.verify_build
  cases hc : env.cargoBuild with
  | spawnErr => simp
  | exited success out err => cases success <;> simp

/-- C8: with an accepted existing directory and the external operations
succeeding, the pipeline trace is exactly the announcement, the directory
reuse message, materialization, then — in this fixed order — the
version-control block exactly when the request enables git and the
configuration enables repository creation, the dependency block exactly
when dependencies are not disabled, and the build block exactly when
verification is not disabled, followed by the success message; each
optional block is non-empty whenever its stage runs, so a stage runs if
and only if its gate holds. -/
theorem claim_C8_stage_gating (cli : Scaffold.Cli) (config : Scaffold.Config)
    (env : Scaffold.Env) (st : Scaffold.TargetDir)
    (hvalid : Scaffold.validate_project_name cli.project = .ok ())
    (hpres : st.present = true)
    (hscaff : Scaffold.is_scaffoldable_directory st.children = true)
    (hgen : env.genResult = .ok ())
    (hgitSpawn : env.gitInit ≠ .spawnErr)
    (hadds : ∀ j, (env.cargoAdd j).isSuccess = true)
    (hbuild : env.cargoBuild.isSuccess = true) :
    (Scaffold.create_project cli config env st).1 =
      [Scaffold.Effect.println ("Creating project: " ++ cli.project),
       Scaffold.Effect.println
         ("Using existing directory: " ++ cli.directory.getD cli.project),
       Scaffold.Effect.generateProject cli.project (cli.directory.getD cli.project)
         (cli.author.getD config.default_author) cli.no_deps] ++
      (if (!cli.no_git && config.create_git_repo) = true then
         (Scaffold.init_git_repo (cli.directory.getD cli.project) env
           { present := true, children := st.children ++ env.genFiles }).1
       else []) ++
      (if (!cli.no_deps) = true then
         (Scaffold.add_dependencies (cli.directory.getD cli.project) config env).1
       else []) ++
      (if (!cli.no_verify) = true then
         (Scaffold.verify_build (cli.directory.getD cli.project) env).1
       else []) ++
      [Scaffold.Effect.println ("Project " ++ cli.project ++ " created successfully!")] ∧
    (Scaffold.init_git_repo (cli.directory.getD cli.project) env
      { present := true, children := st.children ++ env.genFiles }).1 ≠ [] ∧
    (Scaffold.add_dependencies (cli.directory.getD cli.project) config env).1 ≠ [] ∧
    (Scaffold.verify_build (cli.directory.getD cli.project) env).1 ≠ [] := by
  have hgitok : (Scaffold.init_git_repo (cli.directory.getD cli.project) env
      { present := true, children := st.children ++ env.genFiles }).2.2 = .ok () := by
    cases hc : env.gitInit with
    | spawnErr => exact absurd hc hgitSpawn
    | exited success out err =>
      exact (init_git_repo_exited (cli.directory.getD cli.project) env
        { present := true, children := st.children ++ env.genFiles }
        success out err hc).1
  have hdp : (Scaffold.add_dependencies (cli.directory.getD cli.project) config env).2 =
      .ok () := by
    have hl := add_loop_all_success (cli.directory.getD cli.project) env
      config.template.dependencies 0 (fun j _ => by simpa using hadds j)
    simp [Scaffold.add_dependencies, hl]
  have hverok : (Scaffold.verify_build (cli.directory.getD cli.project) env).2 =
      .ok () := by
    cases hc : env.cargoBuild with
    | spawnErr =>
      rw [hc] at hbuild; exact absurd hbuild (by simp [Scaffold.CmdResult.isSuccess])
    | exited success out err =>
      cases success
      · rw [hc] at hbuild; exact absurd hbuild (by simp [Scaffold.CmdResult.isSuccess])
      · unfold Scaffold.verify_build; simp [hc]
  refine ⟨?_,
    init_git_repo_trace_ne_nil _ _ _,
    add_dependencies_trace_ne_nil _ _ _,
    verify_build_trace_ne_nil _ _⟩
  obtain ⟨A1, A2, hio⟩ :
      ∃ a b, Scaffold.init_git_repo (cli.directory.getD cli.project) env
        { present := true, children := st.children ++ env.genFiles } =
          (a, b, Except.ok ()) :=
    ⟨_, _, by rw [← hgitok]⟩
  obtain ⟨D1, hda⟩ :
      ∃ a, Scaffold.add_dependencies (cli.directory.getD cli.project) config env =
        (a, Except.ok ()) :=
    ⟨_, by rw [← hdp]⟩
  obtain ⟨V1, hvb⟩ :
      ∃ a, Scaffold.verify_build (cli.directory.getD cli.project) env =
        (a, Except.ok ()) :=
    ⟨_, by rw [← hverok]⟩
  unfold Scaffold.create_project
  simp only [hvalid, hpres, hscaff, hgen, Bool.not_true, Bool.not_false,
    Bool.false_eq_true, if_true, if_false, ite_true, ite_false]
  cases hng : cli.no_git <;> cases hcgr : config.create_git_repo <;>
    cases hnd : cli.no_deps <;> cases hnv : cli.no_verify <;>
      simp_all [List.append_assoc]

/-- Request with every optional stage enabled. -/
def allOnCli : Scaffold.Cli :=
  { project := "demo-app", author := none, directory := none,
    no_git := false, no_sample_config := false, no_verify := false,
    no_deps := false }

/-- Environment in which every external operation succeeds. -/
def allOkEnv : Scaffold.Env :=
  { createDirOk := true, genResult := .ok (), genFiles := ["Cargo.toml", "src"],
    gitInit := .exited true "" "", cargoAdd := fun _ => .exited true "" "",
    cargoBuild := .exited true "" "" }

/-- An accepted pre-existing target directory. -/
def readmeDir : Scaffold.TargetDir :=
  { present := true, children := ["README.md"] }

/-- Concrete instance of C8: with all stages enabled and everything
succeeding, the trace is the three fixed blocks followed by the three
stage blocks in order and the success message. -/
theorem claim_C8_witness :
    (Scaffold.create_project allOnCli Scaffold.Config.defaultCfg allOkEnv readmeDir).1 =
      [Scaffold.Effect.println ("Creating project: " ++ "demo-app"),
       Scaffold.Effect.println ("Using existing directory: " ++ "demo-app"),
       Scaffold.Effect.generateProject "demo-app" "demo-app"
         "Your Name <your.email@example.com>" false] ++
      (Scaffold.init_git_repo "demo-app" allOkEnv
        { present := true, children := ["README.md"] ++ ["Cargo.toml", "src"] }).1 ++
      (Scaffold.add_dependencies "demo-app" Scaffold.Config.defaultCfg allOkEnv).1 ++
      (Scaffold.verify_build "demo-app" allOkEnv).1 ++
      [Scaffold.Effect.println ("Project " ++ "demo-app" ++ " created successfully!")] := by
  have H := claim_C8_stage_gating allOnCli Scaffold.Config.defaultCfg allOkEnv readmeDir
    (by rfl) rfl (by decide) rfl (by decide) (fun j => rfl) rfl
  simpa [allOnCli, allOkEnv, readmeDir, Scaffold.Config.defaultCfg] using H.1
